import Mathlib

/-!
Verification of the aimlapi-rs chat-session manager.

The definitions below are a shallow embedding of `src/chat.rs` and
`src/lib.rs`: the chat-session registry (`ChatManager`), the per-session
state (`Chat`), the message/role wire model (`Message`, `MessageRole`),
and the completion exchange (`send_message` / `internal_send_message`).
The HTTP transport and the random UUID generator are oracles: the
response received and the generated identifier are explicit arguments.
Machine floats (`f32`) carry no arithmetic in the code, so their literal
values are embedded as rationals; `u32` carries no arithmetic either and
is embedded as `Nat`.
-/

namespace AimlApi

/-- `MessageRole` from chat.rs: the role of a conversation turn. -/
inductive MessageRole where
  | USER
  | SYSTEM
  | AI
deriving DecidableEq, Repr

/-- `impl Into<String> for MessageRole`: the wire string stored in a
`Message` (`USER → "user"`, `SYSTEM → "system"`, `AI → "placeholder"`). -/
def MessageRole.intoString : MessageRole → String
  | .USER => "user"
  | .SYSTEM => "system"
  | .AI => "placeholder"

/-- `impl From<&String> for MessageRole`: parsing a wire string back into
a role; anything other than "user"/"system" becomes `AI`. -/
def MessageRole.fromString (value : String) : MessageRole :=
  if value = "user" then .USER
  else if value = "system" then .SYSTEM
  else .AI

/-- `Message` from chat.rs: a role-tagged turn; the role is stored as its
wire string, exactly as in the Rust struct. -/
structure Message where
  role : String
  content : String
deriving DecidableEq, Repr

/-- `Message::new`. -/
def Message.new (role : MessageRole) (content : String) : Message :=
  { role := role.intoString, content := content }

/-- `Message::get_role`. -/
def Message.get_role (m : Message) : MessageRole :=
  MessageRole.fromString m.role

/-- `Model` from model.rs. -/
structure Model where
  name : String
deriving DecidableEq, Repr

/-- JSON values, used to embed the completion-response body that
`serde_json` parses in `internal_send_message`. -/
inductive Json where
  | null
  | bool (b : Bool)
  | num (q : ℚ)
  | str (s : String)
  | arr (elems : List Json)
  | obj (fields : List (String × Json))

/-- `Value::is_string`. -/
def Json.is_string : Json → Bool
  | .str _ => true
  | _ => false

/-- `Value::as_str`. -/
def Json.as_str : Json → Option String
  | .str s => some s
  | _ => none

/-- `serde_json`'s `IndexMut` with a string key, as used by
`value["key"].take()`: on an object it yields the entry (or `Null` when
the key is absent, which `or_insert(Null)` produces); on `Null` the value
is first turned into an empty object, yielding `Null`; on anything else
`serde_json` panics, embedded as `none`. -/
def indexStrMut : Json → String → Option Json
  | .obj fields, key => some (((fields.find? (fun p => p.1 = key)).map Prod.snd).getD .null)
  | .null, _ => some .null
  | _, _ => none

/-- `serde_json`'s `IndexMut` with a `usize` index, as used by
`value[0].take()`: on an array it yields the element, panicking
(embedded as `none`) when the index is out of bounds; on any non-array
value, `Null` included, `serde_json` panics. -/
def indexNatMut : Json → Nat → Option Json
  | .arr elems, i => elems.get? i
  | _, _ => none

/-- The extraction chain
`json["choices"].take()[0].take()["message"].take()["content"].take()`
from `internal_send_message`; `none` means the chain panicked. -/
def extractContent (body : Json) : Option Json := do
  let choices ← indexStrMut body "choices"
  let first ← indexNatMut choices 0
  let message ← indexStrMut first "message"
  indexStrMut message "content"

/-- `Chat` from chat.rs. The history is the `VecDeque` read front-first:
list position 0 is the newest entry. -/
structure Chat where
  title : String
  model : Model
  max_tokens : Nat
  stream : Bool
  frequency_penalty : ℚ
  top_p : ℚ
  temperature : ℚ
  history : List Message
deriving DecidableEq, Repr

/-- UUIDs are embedded as naturals; `Uuid::nil()` is 0 and `Uuid::new_v4`
becomes an explicit oracle argument (a v4 UUID is never nil). -/
abbrev Uuid := Nat

/-- `Uuid::nil()`. -/
def Uuid.nil : Uuid := 0

/-- `Uuid::is_nil`. -/
def Uuid.is_nil (u : Uuid) : Bool := u = Uuid.nil

/-- The `Display` rendering of a UUID, used by `format!("Chat {uuid}")`.
The uuid crate's hyphenated formatting is external to this repository;
any injective rendering serves, so the decimal one is used. -/
def uuidRender (u : Uuid) : String := toString u

/-- `Chat::new`. -/
def Chat.new (uuid : Uuid) (model : Model) : Chat :=
  { title := "Chat " ++ uuidRender uuid
    model := model
    max_tokens := 512
    stream := false
    frequency_penalty := 0.7
    top_p := 0.7
    temperature := 0.7
    history := [] }

/-- The transport oracle for one completion call: either the POST (or the
body read) fails at the transport level, or an HTTP response with a
status code and a body arrives. -/
inductive Body where
  | unparseable
  | json (v : Json)

/-- See `Body`. -/
inductive Response where
  | transportError
  | http (status : Nat) (body : Body)

/-- The failure taxonomy of `internal_send_message`, one constructor per
`return Err` / `?` site. -/
inductive SendError where
  | transport
  | unexpectedStatus (code : Nat)
  | parseError
  | malformedResponse
deriving DecidableEq, Repr

/-- How one call to `internal_send_message` ends: `Ok(())`, an
`anyhow::Error`, or a panic (the `IndexMut` chain can panic). -/
inductive SendOutcome where
  | ok
  | err (e : SendError)
  | panic
deriving DecidableEq, Repr

/-- The observable result of a send: the session state afterwards, how
the call ended, and the `messages` payload that was built for the
request body. -/
structure SendResult where
  chat : Chat
  outcome : SendOutcome
  payload : List Message
deriving Repr

/-- `Chat::internal_send_message`, with the HTTP exchange abstracted into
the `res` oracle: push the message to the front of the history, build the
`messages` payload by cloning the history and retaining non-AI entries,
send, then demand status 201 and a string at
`choices[0].message.content`. -/
def Chat.internal_send_message (self : Chat) (msg : Message) (res : Response) : SendResult :=
  let self := { self with history := msg :: self.history }
  let messages := self.history.filter (fun m => m.get_role != MessageRole.AI)
  match res with
  | .transportError => ⟨self, .err .transport, messages⟩
  | .http status body =>
    if status ≠ 201 then ⟨self, .err (.unexpectedStatus status), messages⟩
    else match body with
      | .unparseable => ⟨self, .err .parseError, messages⟩
      | .json v =>
        match extractContent v with
        | none => ⟨self, .panic, messages⟩
        | some message =>
          if message.is_string then
            ⟨{ self with history :=
                 Message.new .AI ((message.as_str).getD "") :: self.history },
             .ok, messages⟩
          else ⟨self, .err .malformedResponse, messages⟩

/-- `Chat::send_message`: on an error (not on a panic, which unwinds) a
synthetic AI turn with the fixed error text is pushed to the front. -/
def Chat.send_message (self : Chat) (msg : Message) (res : Response) : SendResult :=
  let r := self.internal_send_message msg res
  let errorTurn := Message.new .AI "An error occured while sending the message"
  match r.outcome with
  | .err _ => { r with chat := { r.chat with history := errorTurn :: r.chat.history } }
  | _ => r

/-! ### The session registry (`ChatManager`)

`HashMap<Uuid, Chat>` is embedded as an association list with unique keys
maintained by the operations themselves: `insert` replaces an existing
binding in place, `remove` drops the binding. Iteration order is not
observed by any registry operation. -/

/-- `HashMap::get` (by key). -/
def mapGet (k : Uuid) : List (Uuid × Chat) → Option Chat
  | [] => none
  | p :: rest => if p.1 = k then some p.2 else mapGet k rest

/-- `HashMap::contains_key`. -/
def mapContains (k : Uuid) (m : List (Uuid × Chat)) : Bool :=
  (mapGet k m).isSome

/-- `HashMap::insert`: replace the binding when the key is present,
otherwise add it. -/
def mapInsert (k : Uuid) (v : Chat) : List (Uuid × Chat) → List (Uuid × Chat)
  | [] => [(k, v)]
  | p :: rest => if p.1 = k then (k, v) :: rest else p :: mapInsert k v rest

/-- `HashMap::remove`. Every binding with the key is dropped; keys are
unique in every map the operations build, so this coincides with
dropping the one binding. -/
def mapRemove (k : Uuid) : List (Uuid × Chat) → List (Uuid × Chat)
  | [] => []
  | p :: rest => if p.1 = k then mapRemove k rest else p :: mapRemove k rest

/-- The error type of the fallible registry operations; both `anyhow!`
sites say "chat does not exist". -/
inductive RegError where
  | notFound
deriving DecidableEq, Repr

/-- `ChatManager` from chat.rs. -/
structure ChatManager where
  current_chat : Uuid
  chats : List (Uuid × Chat)
deriving DecidableEq, Repr

/-- `ChatManager::new`. -/
def ChatManager.new : ChatManager :=
  { current_chat := Uuid.nil, chats := [] }

/-- `ChatManager::chat_exists`. -/
def ChatManager.chat_exists (self : ChatManager) (chat_uuid : Uuid) : Bool :=
  mapContains chat_uuid self.chats

/-- `ChatManager::create_new_chat`, with the `Uuid::new_v4()` draw passed
in as the oracle argument `gen`; returns the updated registry and the
created chat's uuid. -/
def ChatManager.create_new_chat (self : ChatManager) (gen : Uuid) (model : Model) :
    ChatManager × Uuid :=
  let chat := Chat.new gen model
  let self := { self with chats := mapInsert gen chat self.chats }
  let self :=
    if Uuid.is_nil self.current_chat then { self with current_chat := gen } else self
  (self, gen)

/-- `ChatManager::remove_chat`: the `&mut self`/`Result<()>` signature
becomes state-out plus an `Except`; on the early `Err` return the state
is the unmodified input. -/
def ChatManager.remove_chat (self : ChatManager) (chat_uuid : Uuid) :
    ChatManager × Except RegError Unit :=
  if ¬ self.chat_exists chat_uuid then (self, .error .notFound)
  else
    let self := { self with chats := mapRemove chat_uuid self.chats }
    let self :=
      if self.current_chat = chat_uuid then { self with current_chat := Uuid.nil } else self
    (self, .ok ())

/-- `ChatManager::get_chat`. -/
def ChatManager.get_chat (self : ChatManager) (chat_uuid : Uuid) : Option Chat :=
  if ¬ self.chat_exists chat_uuid then none
  else mapGet chat_uuid self.chats

/-- `ChatManager::set_current_chat`. -/
def ChatManager.set_current_chat (self : ChatManager) (chat_uuid : Uuid) :
    ChatManager × Except RegError Unit :=
  if ¬ self.chat_exists chat_uuid then (self, .error .notFound)
  else ({ self with current_chat := chat_uuid }, .ok ())

/-- `ChatManager::get_current_chat`. -/
def ChatManager.get_current_chat (self : ChatManager) : Option (Uuid × Chat) :=
  if ¬ self.chat_exists self.current_chat then none
  else (mapGet self.current_chat self.chats).map (fun c => (self.current_chat, c))

/-! ### Registry trace semantics

Reachable registry states: every public operation as a step, with each
`create` carrying the uuid the RNG produced. A trace is `v4sound` when
every such uuid is non-nil, which `Uuid::new_v4` guarantees (version-4
UUIDs always carry version bits). Read-only operations are steps that
leave the state unchanged. -/

/-- One registry operation, as invoked by a caller. -/
inductive RegOp where
  | create (gen : Uuid) (model : Model)
  | remove (u : Uuid)
  | setCurrent (u : Uuid)
  | getCurrent
  | getChat (u : Uuid)
  | queryExists (u : Uuid)

/-- The state reached after one operation. -/
def stepOp (s : ChatManager) : RegOp → ChatManager
  | .create gen model => (s.create_new_chat gen model).1
  | .remove u => (s.remove_chat u).1
  | .setCurrent u => (s.set_current_chat u).1
  | .getCurrent => s
  | .getChat _ => s
  | .queryExists _ => s

/-- The state reached after a list of operations, oldest first. -/
def runOps (s : ChatManager) : List RegOp → ChatManager
  | [] => s
  | op :: rest => runOps (stepOp s op) rest

/-- `Uuid::new_v4` never returns the nil uuid. -/
def RegOp.v4sound : RegOp → Bool
  | .create gen _ => ¬ Uuid.is_nil gen
  | _ => true

/-! ### Startup (`AIMLAPI::start` from lib.rs) -/

/-- `AIMLAPI` from lib.rs. -/
structure AIMLAPI where
  local_save : Bool
  api_key : Option String
  models : List Model
  chat_manager : ChatManager
deriving DecidableEq, Repr

/-- `AIMLAPI::start`, with its two collaborators as oracles: `saved` is
the successfully deserialized `save.json` when that file exists (absence
of the file is `none`; a malformed file panics and is out of scope), and
`fetched` is the catalog that `AIMLAPI::get_models()` returned. `start`
only proceeds past `get_models().await?` on a successful fetch, which is
what `fetched` represents. -/
def AIMLAPI.start (saved : Option AIMLAPI) (fetched : List Model) : AIMLAPI :=
  match saved with
  | some instance_ => { instance_ with models := fetched }
  | none =>
    { local_save := true
      api_key := none
      models := fetched
      chat_manager := ChatManager.new }

/-! ### Concrete fixtures used by witnesses and counterexamples -/

/-- A concrete model. -/
def modelA : Model := { name := "gpt-4o" }

/-- A concrete session. -/
def chatA : Chat := Chat.new 7 modelA

/-- A concrete user message. -/
def msgU : Message := Message.new .USER "hello"

/-- The spec's worked history example, newest first. -/
def historyQ : List Message :=
  [Message.new .AI "r2", Message.new .USER "q2", Message.new .AI "r1", Message.new .USER "q1"]

/-- A session holding the spec's worked history example. -/
def chatQ : Chat := { Chat.new 7 modelA with history := historyQ }

/-- A well-formed completion body: `choices[0].message.content` is the
string "hi". -/
def goodBody : Json :=
  .obj [("choices", .arr [.obj [("message", .obj [("content", .str "hi")])]])]

/-- A completion body whose `choices[0].message.content` is the number
42 rather than a string. -/
def numBody : Json :=
  .obj [("choices", .arr [.obj [("message", .obj [("content", .num 42)])]])]

/-- A registry holding exactly one session, under uuid 1. -/
def regOne : ChatManager := (ChatManager.new.create_new_chat 1 modelA).1

/-! ### Association-list lemmas -/

/-- Lookup after insert. -/
theorem mapGet_insert (k g : Uuid) (v : Chat) (m : List (Uuid × Chat)) :
    mapGet k (mapInsert g v m) = if g = k then some v else mapGet k m := by
  induction m with
  | nil => simp [mapInsert, mapGet]
  | cons p rest ih =>
    by_cases h : p.1 = g
    · simp only [mapInsert, h, if_pos rfl, mapGet]
      by_cases hk : g = k <;> simp [hk, h, mapGet]
    · simp only [mapInsert, h, if_neg h, mapGet]
      by_cases hk : p.1 = k
      · have : ¬ g = k := fun hg => h (hg ▸ hk)
        simp [hk, this]
      · simp [hk, ih]

/-- Lookup after remove. -/
theorem mapGet_remove (k u : Uuid) (m : List (Uuid × Chat)) :
    mapGet k (mapRemove u m) = if u = k then none else mapGet k m := by
  induction m with
  | nil => simp [mapRemove, mapGet]
  | cons p rest ih =>
    by_cases h : p.1 = u
    · by_cases hk : u = k
      · subst hk
        simp only [if_pos rfl] at ih ⊢
        simp [mapRemove, h, ih]
      · have hpk : ¬ p.1 = k := fun hp => hk (h ▸ hp)
        simp only [mapRemove, if_pos h, ih, if_neg hk, mapGet, if_neg hpk]
    · by_cases hk : p.1 = k
      · have hu : ¬ u = k := fun hue => h (hk.trans hue.symm)
        simp only [mapRemove, if_neg h, mapGet, if_pos hk, ih, if_neg hu]
      · simp only [mapRemove, if_neg h, mapGet, if_pos, if_neg hk, ih]

/-- Membership after insert. -/
theorem mapContains_insert (k g : Uuid) (v : Chat) (m : List (Uuid × Chat)) :
    mapContains k (mapInsert g v m) = (g = k || mapContains k m) := by
  by_cases h : g = k <;> simp [mapContains, mapGet_insert, h]

/-- Membership after remove. -/
theorem mapContains_remove (k u : Uuid) (m : List (Uuid × Chat)) :
    mapContains k (mapRemove u m) = (!(u = k) && mapContains k m) := by
  by_cases h : u = k <;> simp [mapContains, mapGet_remove, h]

/-! ### Lemmas about the completion exchange -/

/-- The `messages` payload built by `internal_send_message` is the
pushed history with AI-role entries removed. -/
theorem internal_payload (c : Chat) (msg : Message) (res : Response) :
    (c.internal_send_message msg res).payload =
      (msg :: c.history).filter (fun m => m.get_role != MessageRole.AI) := by
  cases res with
  | transportError => rfl
  | http status body =>
    by_cases hs : status ≠ 201
    · simp [Chat.internal_send_message, hs]
    · cases body with
      | unparseable => simp [Chat.internal_send_message, hs]
      | json v =>
        cases hx : extractContent v with
        | none => simp [Chat.internal_send_message, hs, hx]
        | some mv =>
          by_cases hstr : mv.is_string = true <;>
            simp [Chat.internal_send_message, hs, hx, hstr]

/-- `internal_send_message` only rewrites the history field. -/
theorem internal_chat_frame (c : Chat) (msg : Message) (res : Response) :
    (c.internal_send_message msg res).chat =
      { c with history := (c.internal_send_message msg res).chat.history } := by
  cases res with
  | transportError => rfl
  | http status body =>
    by_cases hs : status ≠ 201
    · simp [Chat.internal_send_message, hs]
    · cases body with
      | unparseable => simp [Chat.internal_send_message, hs]
      | json v =>
        cases hx : extractContent v with
        | none => simp [Chat.internal_send_message, hs, hx]
        | some mv =>
          by_cases hstr : mv.is_string = true <;>
            simp [Chat.internal_send_message, hs, hx, hstr]

/-- A successful `internal_send_message` came from a 201 response whose
`choices[0].message.content` is a string, and pushed exactly that string
as an AI turn. -/
theorem internal_ok_history (c : Chat) (msg : Message) (res : Response)
    (h : (c.internal_send_message msg res).outcome = .ok) :
    ∃ v s, res = .http 201 (.json v) ∧ extractContent v = some (.str s) ∧
      (c.internal_send_message msg res).chat.history =
        Message.new .AI s :: msg :: c.history := by
  revert h
  cases res with
  | transportError =>
    intro h; exact absurd h (by simp [Chat.internal_send_message])
  | http status body =>
    by_cases hs : status ≠ 201
    · intro h; exact absurd h (by simp [Chat.internal_send_message, hs])
    · rw [not_ne_iff] at hs
      subst hs
      cases body with
      | unparseable =>
        intro h; exact absurd h (by simp [Chat.internal_send_message])
      | json v =>
        cases hx : extractContent v with
        | none =>
          intro h; exact absurd h (by simp [Chat.internal_send_message, hx])
        | some mv =>
          cases mv with
          | str s =>
            intro _
            refine ⟨v, s, rfl, hx, ?_⟩
            simp [Chat.internal_send_message, hx, Json.is_string, Json.as_str]
          | null =>
            intro h
            exact absurd h (by simp [Chat.internal_send_message, hx, Json.is_string])
          | bool b =>
            intro h
            exact absurd h (by simp [Chat.internal_send_message, hx, Json.is_string])
          | num q =>
            intro h
            exact absurd h (by simp [Chat.internal_send_message, hx, Json.is_string])
          | arr elems =>
            intro h
            exact absurd h (by simp [Chat.internal_send_message, hx, Json.is_string])
          | obj fields =>
            intro h
            exact absurd h (by simp [Chat.internal_send_message, hx, Json.is_string])

/-- An unsuccessful `internal_send_message` left the history at exactly
the pushed message on top of the old history. -/
theorem internal_not_ok_history (c : Chat) (msg : Message) (res : Response)
    (h : (c.internal_send_message msg res).outcome ≠ .ok) :
    (c.internal_send_message msg res).chat.history = msg :: c.history := by
  revert h
  cases res with
  | transportError => intro _; rfl
  | http status body =>
    by_cases hs : status ≠ 201
    · simp [Chat.internal_send_message, hs]
    · cases body with
      | unparseable => simp [Chat.internal_send_message, hs]
      | json v =>
        cases hx : extractContent v with
        | none => simp [Chat.internal_send_message, hs, hx]
        | some mv =>
          by_cases hstr : mv.is_string = true <;>
            simp [Chat.internal_send_message, hs, hx, hstr]

/-- `send_message` reports exactly the outcome of
`internal_send_message`. -/
theorem send_outcome_eq (c : Chat) (msg : Message) (res : Response) :
    (c.send_message msg res).outcome = (c.internal_send_message msg res).outcome := by
  cases h : (c.internal_send_message msg res).outcome <;>
    simp [Chat.send_message, h]

/-- `send_message` forwards the payload of `internal_send_message`. -/
theorem send_payload_eq (c : Chat) (msg : Message) (res : Response) :
    (c.send_message msg res).payload = (c.internal_send_message msg res).payload := by
  cases h : (c.internal_send_message msg res).outcome <;>
    simp [Chat.send_message, h]

/-- On an error outcome `send_message` pushes the fixed error turn on
top of the history `internal_send_message` left. -/
theorem send_history_err (c : Chat) (msg : Message) (res : Response) (e : SendError)
    (h : (c.internal_send_message msg res).outcome = .err e) :
    (c.send_message msg res).chat.history =
      Message.new .AI "An error occured while sending the message" ::
        (c.internal_send_message msg res).chat.history := by
  simp [Chat.send_message, h]

/-- On a success `send_message` returns the state of
`internal_send_message` unchanged. -/
theorem send_chat_of_ok (c : Chat) (msg : Message) (res : Response)
    (h : (c.internal_send_message msg res).outcome = .ok) :
    (c.send_message msg res).chat = (c.internal_send_message msg res).chat := by
  simp [Chat.send_message, h]

/-- On a panic the error turn is not pushed (the panic unwinds). -/
theorem send_chat_of_panic (c : Chat) (msg : Message) (res : Response)
    (h : (c.internal_send_message msg res).outcome = .panic) :
    (c.send_message msg res).chat = (c.internal_send_message msg res).chat := by
  simp [Chat.send_message, h]

/-- `send_message` only rewrites the history field of the session. -/
theorem send_chat_frame (c : Chat) (msg : Message) (res : Response) :
    (c.send_message msg res).chat =
      { c with history := (c.send_message msg res).chat.history } := by
  have hin := internal_chat_frame c msg res
  cases h : (c.internal_send_message msg res).outcome with
  | ok => rw [send_chat_of_ok c msg res h, hin]
  | panic => rw [send_chat_of_panic c msg res h, hin]
  | err e =>
    have hh := send_history_err c msg res e h
    simp only [Chat.send_message, h] at hh ⊢
    rw [hin]

/-! ### Lemmas about the registry operations -/

/-- The mapping after `create_new_chat`. -/
theorem create_chats_eq (s : ChatManager) (g : Uuid) (m : Model) :
    ((s.create_new_chat g m).1).chats = mapInsert g (Chat.new g m) s.chats := by
  simp only [ChatManager.create_new_chat]
  split <;> rfl

/-- The marker after `create_new_chat`. -/
theorem create_current_eq (s : ChatManager) (g : Uuid) (m : Model) :
    ((s.create_new_chat g m).1).current_chat =
      if Uuid.is_nil s.current_chat then g else s.current_chat := by
  simp only [ChatManager.create_new_chat]
  split <;> simp_all

/-- Membership after `create_new_chat`. -/
theorem create_exists_iff (s : ChatManager) (g : Uuid) (m : Model) (k : Uuid) :
    ((s.create_new_chat g m).1).chat_exists k = (g = k || s.chat_exists k) := by
  simp [ChatManager.chat_exists, create_chats_eq, mapContains_insert]

/-- `remove_chat` on an absent uuid fails and does not touch the state. -/
theorem remove_notFound (s : ChatManager) (u : Uuid) (h : s.chat_exists u = false) :
    s.remove_chat u = (s, Except.error RegError.notFound) := by
  simp [ChatManager.remove_chat, h]

/-- `remove_chat` on a present uuid succeeds. -/
theorem remove_ok (s : ChatManager) (u : Uuid) (h : s.chat_exists u = true) :
    (s.remove_chat u).2 = Except.ok () := by
  simp [ChatManager.remove_chat, h]

/-- The mapping after a successful `remove_chat`. -/
theorem remove_chats_eq (s : ChatManager) (u : Uuid) (h : s.chat_exists u = true) :
    ((s.remove_chat u).1).chats = mapRemove u s.chats := by
  simp only [ChatManager.remove_chat, h]
  split
  · simp_all
  · split <;> rfl

/-- The marker after a successful `remove_chat`. -/
theorem remove_current_eq (s : ChatManager) (u : Uuid) (h : s.chat_exists u = true) :
    ((s.remove_chat u).1).current_chat =
      if s.current_chat = u then Uuid.nil else s.current_chat := by
  simp only [ChatManager.remove_chat, h]
  split
  · simp_all
  · split <;> simp_all

/-- Membership after a successful `remove_chat`. -/
theorem remove_exists_iff (s : ChatManager) (u k : Uuid) (h : s.chat_exists u = true) :
    ((s.remove_chat u).1).chat_exists k = (!(u = k) && s.chat_exists k) := by
  simp [ChatManager.chat_exists, remove_chats_eq s u h, mapContains_remove]

/-- `set_current_chat` on a present uuid. -/
theorem setCurrent_ok (s : ChatManager) (u : Uuid) (h : s.chat_exists u = true) :
    s.set_current_chat u = ({ s with current_chat := u }, Except.ok ()) := by
  simp [ChatManager.set_current_chat, h]

/-- `set_current_chat` on an absent uuid fails without mutation. -/
theorem setCurrent_notFound (s : ChatManager) (u : Uuid) (h : s.chat_exists u = false) :
    s.set_current_chat u = (s, Except.error RegError.notFound) := by
  simp [ChatManager.set_current_chat, h]

/-- `get_current_chat` is absent whenever the marker does not name a
live entry. -/
theorem getCurrent_none (s : ChatManager) (h : s.chat_exists s.current_chat = false) :
    s.get_current_chat = none := by
  simp [ChatManager.get_current_chat, h]

/-! ### Reachable-state invariant -/

/-- Well-formedness of a registry state: the current-session marker is
unset (nil) or names a live entry, and no session is stored under the
nil uuid. -/
def regWf (s : ChatManager) : Prop :=
  (s.current_chat = Uuid.nil ∨ s.chat_exists s.current_chat = true) ∧
  s.chat_exists Uuid.nil = false

/-- The fresh registry is well-formed. -/
theorem regWf_new : regWf ChatManager.new :=
  ⟨Or.inl rfl, rfl⟩

/-- Every operation preserves well-formedness, given that the RNG never
returns the nil uuid. -/
theorem regWf_step (s : ChatManager) (op : RegOp) (hop : op.v4sound = true)
    (h : regWf s) : regWf (stepOp s op) := by
  obtain ⟨h1, h2⟩ := h
  cases op with
  | create g m =>
    have hg : ¬ g = Uuid.nil := by
      simpa [RegOp.v4sound, Uuid.is_nil] using hop
    constructor
    · by_cases hnil : Uuid.is_nil s.current_chat
      · right
        simp only [stepOp, create_exists_iff, create_current_eq, if_pos hnil]
        simp
      · right
        have hcur : s.chat_exists s.current_chat = true := by
          rcases h1 with h1 | h1
          · exact absurd (by simp [Uuid.is_nil, h1]) hnil
          · exact h1
        simp only [stepOp, create_exists_iff, create_current_eq, if_neg hnil]
        simp [hcur]
    · simp only [stepOp, create_exists_iff]
      simp [hg, h2]
  | remove u =>
    by_cases hex : s.chat_exists u = true
    · constructor
      · by_cases hcu : s.current_chat = u
        · left
          simp only [stepOp, remove_current_eq s u hex, if_pos hcu]
        · rcases h1 with h1 | h1
          · left
            simp only [stepOp, remove_current_eq s u hex, if_neg hcu, h1]
            simp
          · right
            have hne : ¬ u = s.current_chat := fun hh => hcu hh.symm
            simp only [stepOp, remove_exists_iff s u _ hex,
              remove_current_eq s u hex, if_neg hcu]
            simp [h1, hne]
      · simp only [stepOp, remove_exists_iff s u _ hex]
        simp [h2]
    · have hex' : s.chat_exists u = false := by simpa using hex
      simp only [stepOp, remove_notFound s u hex']
      exact ⟨h1, h2⟩
  | setCurrent u =>
    by_cases hex : s.chat_exists u = true
    · simp only [stepOp, setCurrent_ok s u hex]
      exact ⟨Or.inr (by simpa [ChatManager.chat_exists] using hex), h2⟩
    · have hex' : s.chat_exists u = false := by simpa using hex
      simp only [stepOp, setCurrent_notFound s u hex']
      exact ⟨h1, h2⟩
  | getCurrent => exact ⟨h1, h2⟩
  | getChat u => exact ⟨h1, h2⟩
  | queryExists u => exact ⟨h1, h2⟩

/-- Every reachable registry state is well-formed. -/
theorem regWf_runOps (s : ChatManager) (ops : List RegOp)
    (hops : ops.all RegOp.v4sound = true) (h : regWf s) : regWf (runOps s ops) := by
  induction ops generalizing s with
  | nil => exact h
  | cons op rest ih =>
    simp only [List.all_cons, Bool.and_eq_true] at hops
    exact ih (stepOp s op) hops.2 (regWf_step s op hops.1 h)

/-- Operations other than `setCurrent` and `create` never set the
current-session marker. -/
def RegOp.keepsAbsence : RegOp → Bool
  | .create _ _ => false
  | .setCurrent _ => false
  | _ => true

/-! ### Claim theorems -/

/-- Claim C1, counterexample: with the spec's worked history
`[AI:"r2", User:"q2", AI:"r1", User:"q1"]` (newest first), a next send
submitting `User:"q3"` does NOT produce the payload
`[User:"q2", User:"q1"]` — the just-pushed message is part of the
filtered payload as well. -/
theorem c1_counterexample :
    (chatQ.send_message (Message.new .USER "q3") .transportError).payload ≠
      [Message.new .USER "q2", Message.new .USER "q1"] := by
  decide

/-- Claim C1 (amended): for every send, the outbound `messages` payload
is exactly the history after pushing the submitted message with every
AI-role entry removed, order preserved; in particular, for the spec's
worked history and a submitted message `User:"q3"` the payload is
`[User:"q3", User:"q2", User:"q1"]` (the claim's `[User:"q2",
User:"q1"]` omits the submitted message itself). -/
theorem c1_outbound_filtering :
    (∀ (c : Chat) (msg : Message) (res : Response),
        (c.send_message msg res).payload =
          (msg :: c.history).filter (fun m => m.get_role != MessageRole.AI)) ∧
    (chatQ.send_message (Message.new .USER "q3") .transportError).payload =
      [Message.new .USER "q3", Message.new .USER "q2", Message.new .USER "q1"] := by
  constructor
  · intro c msg res
    rw [send_payload_eq, internal_payload]
  · decide

/-- Claim C2, code bug: a 201 response whose `choices[0].message.content`
is unreachable does NOT fail with MalformedResponse — the indexing chain
`json["choices"].take()[0].take()...` uses serde_json's `IndexMut`,
which panics when `choices` is missing (body `{}` turns it into `Null`,
and `Null[0]` panics). The claim's other legs hold: a 200 status fails
with UnexpectedStatus(200) even on a well-formed body, and a 201 body
whose content is a number fails with MalformedResponse. -/
theorem c2_unreachable_content_panics :
    (chatA.internal_send_message msgU (.http 201 (.json (Json.obj [])))).outcome =
      .panic ∧
    (chatA.internal_send_message msgU (.http 201 (.json (Json.obj [])))).outcome ≠
      .err .malformedResponse ∧
    (chatA.internal_send_message msgU (.http 200 (.json goodBody))).outcome =
      .err (.unexpectedStatus 200) ∧
    (chatA.internal_send_message msgU (.http 201 (.json numBody))).outcome =
      .err .malformedResponse := by
  refine ⟨by decide, by decide, by decide, by decide⟩

/-- Claim C3, counterexample: the synthetic AI turn pushed on a failing
send does not carry the claimed text "An error occurred while sending
the message" — the code's literal is "An error occured while sending
the message" (sic). -/
theorem c3_counterexample :
    (chatA.send_message msgU .transportError).chat.history ≠
      Message.new .AI "An error occurred while sending the message" ::
        msgU :: chatA.history := by
  decide

/-- Claim C3 (amended): on every send, the reported outcome is exactly
the outcome of the exchange (errors are still returned); on a failure
the history afterwards is the old history with the submitted message at
position 1 and a synthetic AI turn reading "An error occured while
sending the message" (the code's spelling) at position 0; on success the
AI turn at position 0 carries exactly the string extracted from the 201
response. -/
theorem c3_history_bracketing (c : Chat) (msg : Message) (res : Response) :
    ((c.send_message msg res).outcome = (c.internal_send_message msg res).outcome) ∧
    (∀ e : SendError, (c.send_message msg res).outcome = .err e →
      (c.send_message msg res).chat.history =
        Message.new .AI "An error occured while sending the message" ::
          msg :: c.history) ∧
    ((c.send_message msg res).outcome = .ok →
      ∃ v s, res = .http 201 (.json v) ∧ extractContent v = some (.str s) ∧
        (c.send_message msg res).chat.history =
          Message.new .AI s :: msg :: c.history) := by
  refine ⟨send_outcome_eq c msg res, ?_, ?_⟩
  · intro e he
    rw [send_outcome_eq] at he
    rw [send_history_err c msg res e he,
      internal_not_ok_history c msg res (by rw [he]; simp)]
  · intro hok
    rw [send_outcome_eq] at hok
    obtain ⟨v, s, hres, hx, hh⟩ := internal_ok_history c msg res hok
    exact ⟨v, s, hres, hx, by rw [send_chat_of_ok c msg res hok, hh]⟩

/-- Witness for C3: a concrete failing send pushes the submitted message
and the synthetic error turn, and a concrete successful send pushes the
submitted message and the extracted response string. -/
theorem c3_history_bracketing_witness :
    ((chatA.send_message msgU .transportError).chat.history =
      Message.new .AI "An error occured while sending the message" ::
        msgU :: chatA.history) ∧
    (∃ v s, (Response.http 201 (.json goodBody)) = Response.http 201 (.json v) ∧
      extractContent v = some (.str s) ∧
      (chatA.send_message msgU (.http 201 (.json goodBody))).chat.history =
        Message.new .AI s :: msgU :: chatA.history) :=
  ⟨(c3_history_bracketing chatA msgU .transportError).2.1 .transport (by decide),
   (c3_history_bracketing chatA msgU (.http 201 (.json goodBody))).2.2 (by decide)⟩

/-- Claim C4: `create_new_chat` inserts a session under the generated
identifier, returns that identifier, never fails (it is total), and
makes the new session current exactly when no current session was set;
after the first create on the fresh registry `get_current_chat` returns
that session, and a second create leaves the current session unchanged
(first-writer-wins). The hypotheses are the RNG guarantees: v4 uuids are
never nil and distinct draws differ. -/
theorem c4_create_current (s : ChatManager) (m m2 : Model) (g g2 : Uuid)
    (hg : g ≠ Uuid.nil) (hne : g2 ≠ g) :
    ((s.create_new_chat g m).2 = g ∧
      ((s.create_new_chat g m).1).chat_exists g = true ∧
      ((s.create_new_chat g m).1).current_chat =
        (if Uuid.is_nil s.current_chat then g else s.current_chat)) ∧
    ((ChatManager.new.create_new_chat g m).1).get_current_chat =
      some (g, Chat.new g m) ∧
    ((((ChatManager.new.create_new_chat g m).1).create_new_chat g2 m2).1).get_current_chat =
      some (g, Chat.new g m) := by
  refine ⟨⟨rfl, ?_, create_current_eq s g m⟩, ?_, ?_⟩
  · simp [create_exists_iff]
  · have hcur : ((ChatManager.new.create_new_chat g m).1).current_chat = g := by
      simp [create_current_eq, ChatManager.new, Uuid.is_nil, Uuid.nil]
    have hchats : ((ChatManager.new.create_new_chat g m).1).chats =
        [(g, Chat.new g m)] := by
      rw [create_chats_eq]; rfl
    simp [ChatManager.get_current_chat, hcur, ChatManager.chat_exists, hchats,
      mapContains, mapGet]
  · have hcur1 : ((ChatManager.new.create_new_chat g m).1).current_chat = g := by
      simp [create_current_eq, ChatManager.new, Uuid.is_nil, Uuid.nil]
    have hcur2 :
        ((((ChatManager.new.create_new_chat g m).1).create_new_chat g2 m2).1).current_chat
          = g := by
      rw [create_current_eq]
      simp [hcur1, Uuid.is_nil, hg]
    have hchats :
        ((((ChatManager.new.create_new_chat g m).1).create_new_chat g2 m2).1).chats =
          mapInsert g2 (Chat.new g2 m2) (mapInsert g (Chat.new g m) []) := by
      rw [create_chats_eq, create_chats_eq]
      simp [ChatManager.new]
    have hget : mapGet g (mapInsert g2 (Chat.new g2 m2) (mapInsert g (Chat.new g m) []))
        = some (Chat.new g m) := by
      rw [mapGet_insert, mapGet_insert]
      simp [hne]
    simp [ChatManager.get_current_chat, hcur2, ChatManager.chat_exists,
      hchats, mapContains, hget]

/-- Witness for C4 at concrete registry and uuids. -/
theorem c4_create_current_witness :
    ((regOne.create_new_chat 2 modelA).2 = 2 ∧
      ((regOne.create_new_chat 2 modelA).1).chat_exists 2 = true ∧
      ((regOne.create_new_chat 2 modelA).1).current_chat =
        (if Uuid.is_nil regOne.current_chat then 2 else regOne.current_chat)) ∧
    ((ChatManager.new.create_new_chat 2 modelA).1).get_current_chat =
      some (2, Chat.new 2 modelA) ∧
    ((((ChatManager.new.create_new_chat 2 modelA).1).create_new_chat 3 modelA).1).get_current_chat =
      some (2, Chat.new 2 modelA) :=
  c4_create_current regOne modelA modelA 2 3 (by decide) (by decide)

/-- Claim C5: in every state reachable from the fresh registry, the
current-session marker is unset or names a live entry; removing the
session the marker names succeeds only by clearing the marker, after
which `get_current_chat` is absent; and it stays absent under every
operation other than `set_current_chat` and `create_new_chat`. -/
theorem c5_registry_invariant (ops : List RegOp) (s : ChatManager)
    (hops : ops.all RegOp.v4sound = true)
    (hs : s = runOps ChatManager.new ops) :
    (s.current_chat = Uuid.nil ∨ s.chat_exists s.current_chat = true) ∧
    ((s.remove_chat s.current_chat).2 = Except.ok () →
      ((s.remove_chat s.current_chat).1).current_chat = Uuid.nil ∧
      ((s.remove_chat s.current_chat).1).get_current_chat = none) ∧
    (s.current_chat = Uuid.nil → s.get_current_chat = none) ∧
    (∀ op : RegOp, op.keepsAbsence = true → s.current_chat = Uuid.nil →
      (stepOp s op).current_chat = Uuid.nil) := by
  have hwf : regWf s := hs ▸ regWf_runOps ChatManager.new ops hops regWf_new
  obtain ⟨h1, h2⟩ := hwf
  refine ⟨h1, ?_, ?_, ?_⟩
  · intro hok
    have hex : s.chat_exists s.current_chat = true := by
      by_contra hx
      have hx' : s.chat_exists s.current_chat = false := by simpa using hx
      rw [remove_notFound s s.current_chat hx'] at hok
      exact absurd hok (by simp)
    have hcur : ((s.remove_chat s.current_chat).1).current_chat = Uuid.nil := by
      rw [remove_current_eq s s.current_chat hex]
      simp
    refine ⟨hcur, getCurrent_none _ ?_⟩
    rw [hcur, remove_exists_iff s s.current_chat Uuid.nil hex]
    simp [h2]
  · intro hnil
    exact getCurrent_none s (by rw [hnil]; exact h2)
  · intro op hkeep hnil
    cases op with
    | create g m => simp [RegOp.keepsAbsence] at hkeep
    | setCurrent u => simp [RegOp.keepsAbsence] at hkeep
    | remove u =>
      by_cases hex : s.chat_exists u = true
      · simp only [stepOp, remove_current_eq s u hex, hnil]
        split <;> rfl
      · have hex' : s.chat_exists u = false := by simpa using hex
        simp only [stepOp, remove_notFound s u hex']
        exact hnil
    | getCurrent => exact hnil
    | getChat u => exact hnil
    | queryExists u => exact hnil

/-- Witness for C5: the registry reached by creating session 1 and then
removing it has an unset marker or a live one. -/
theorem c5_registry_invariant_witness :
    ((runOps ChatManager.new [RegOp.create 1 modelA, RegOp.remove 1]).current_chat =
      Uuid.nil ∨
    (runOps ChatManager.new [RegOp.create 1 modelA, RegOp.remove 1]).chat_exists
      ((runOps ChatManager.new [RegOp.create 1 modelA, RegOp.remove 1]).current_chat) =
      true) :=
  (c5_registry_invariant [RegOp.create 1 modelA, RegOp.remove 1]
    (runOps ChatManager.new [RegOp.create 1 modelA, RegOp.remove 1])
    (by decide) rfl).1

/-- Claim C6: `remove_chat` on an absent uuid fails with NotFound and
leaves the registry (mapping and marker) completely unchanged; on a
present uuid it succeeds and the uuid is gone afterwards. -/
theorem c6_remove_semantics (s : ChatManager) (u : Uuid) :
    (s.chat_exists u = false →
      s.remove_chat u = (s, Except.error RegError.notFound)) ∧
    (s.chat_exists u = true →
      (s.remove_chat u).2 = Except.ok () ∧
      ((s.remove_chat u).1).chat_exists u = false) := by
  constructor
  · exact remove_notFound s u
  · intro h
    refine ⟨remove_ok s u h, ?_⟩
    rw [remove_exists_iff s u u h]
    simp

/-- Witness for C6: removing the absent uuid 1 from the fresh registry
fails without mutation; removing the present uuid 1 from `regOne`
succeeds and leaves it absent. -/
theorem c6_remove_semantics_witness :
    (ChatManager.new.remove_chat 1 = (ChatManager.new, Except.error RegError.notFound)) ∧
    ((regOne.remove_chat 1).2 = Except.ok () ∧
      ((regOne.remove_chat 1).1).chat_exists 1 = false) :=
  ⟨(c6_remove_semantics ChatManager.new 1).1 (by decide),
   (c6_remove_semantics regOne 1).2 (by decide)⟩

/-- Claim C7: constructing a message with any role and reading the role
back yields that role; the stored wire strings are "user", "system" and
the internal placeholder "placeholder"; and deserializing any role
string other than "user"/"system" yields AI. -/
theorem c7_role_round_trip :
    (∀ (r : MessageRole) (c : String), (Message.new r c).get_role = r) ∧
    (∀ c : String, (Message.new .USER c).role = "user") ∧
    (∀ c : String, (Message.new .SYSTEM c).role = "system") ∧
    (∀ c : String, (Message.new .AI c).role = "placeholder") ∧
    (∀ s : String, s ≠ "user" → s ≠ "system" → MessageRole.fromString s = .AI) := by
  refine ⟨?_, fun c => rfl, fun c => rfl, fun c => rfl, ?_⟩
  · intro r c
    cases r <;> rfl
  · intro s h1 h2
    simp [MessageRole.fromString, h1, h2]

/-- Witness for C7: the wire string "assistant" deserializes to AI. -/
theorem c7_role_round_trip_witness :
    MessageRole.fromString "assistant" = .AI :=
  c7_role_round_trip.2.2.2.2 "assistant" (by decide) (by decide)

/-- Claim C8: with no persisted store, `start` yields a fresh empty
registry with local persistence on and no API key; in both the fresh
and the restored case the model list is the freshly fetched catalog. -/
theorem c8_start_models (saved : Option AIMLAPI) (fetched : List Model) :
    AIMLAPI.start none fetched =
      { local_save := true
        api_key := none
        models := fetched
        chat_manager := ChatManager.new } ∧
    (AIMLAPI.start saved fetched).models = fetched := by
  constructor
  · rfl
  · cases saved <;> rfl

/-- Claim C9: a send never changes the session's title, model or
generation parameters; only the history moves. -/
theorem c9_send_frame (c : Chat) (msg : Message) (res : Response) :
    (c.send_message msg res).chat.title = c.title ∧
    (c.send_message msg res).chat.model = c.model ∧
    (c.send_message msg res).chat.max_tokens = c.max_tokens ∧
    (c.send_message msg res).chat.stream = c.stream ∧
    (c.send_message msg res).chat.frequency_penalty = c.frequency_penalty ∧
    (c.send_message msg res).chat.top_p = c.top_p ∧
    (c.send_message msg res).chat.temperature = c.temperature := by
  rw [send_chat_frame c msg res]
  exact ⟨rfl, rfl, rfl, rfl, rfl, rfl, rfl⟩

/-- Claim C10: the session created by `create_new_chat` is stored under
the new identifier and carries exactly the defaults `max_tokens = 512`,
`stream = false`, `frequency_penalty = 0.7`, `top_p = 0.7`,
`temperature = 0.7`, with an empty history and the title
`"Chat {uuid}"` derived from the identifier. -/
theorem c10_session_defaults (s : ChatManager) (g : Uuid) (m : Model) :
    ((s.create_new_chat g m).1).get_chat g = some (Chat.new g m) ∧
    Chat.new g m =
      { title := "Chat " ++ uuidRender g
        model := m
        max_tokens := 512
        stream := false
        frequency_penalty := 0.7
        top_p := 0.7
        temperature := 0.7
        history := [] } := by
  refine ⟨?_, rfl⟩
  have hex : ((s.create_new_chat g m).1).chat_exists g = true := by
    simp [create_exists_iff]
  simp [ChatManager.get_chat, hex, create_chats_eq, mapGet_insert]

end AimlApi
